import Mathlib

/-!
Verification of the HTTP Error Classification & Propagation Pipeline of the
`soluce-front` application.

The development shallowly embeds the TypeScript sources:
- `ErrorService` (`error.service.ts`): payload normalizer, message and
  field-error extraction, and the status-code classifier `createAppError`.
- the error class hierarchy (`app-error.ts`, `api-http-error.ts` and the nine
  concrete variants), re-expressed as a record tagged by the `name` string
  discriminant, exactly as each class constructor fixes it.
- `httpErrorInterceptor` (`http-error.interceptor.ts`) together with the
  `SKIP_GLOBAL_ERROR_HANDLING` context token, modelled as a function from the
  request and the transport outcome to the ordered list of side effects and
  the value delivered to the caller.
- `NotificationService` (`notification.service.ts`), modelled as explicit
  state passing over the active-toast list and the monotonic id counter.

Dynamic JavaScript values (the `unknown` backend payload and arbitrary thrown
values) are embedded as the inductive `JsValue`.  The wall-clock `timestamp`
field of `AppError` is the only field not modelled: no claim mentions it and
it is the sole non-deterministic input of the subsystem.
-/

namespace Soluce

/-- Embedding of a dynamic JavaScript value: the type of the untyped backend
error payload and of arbitrary thrown values. -/
inductive JsValue where
  | null : JsValue
  | undef : JsValue
  | bool : Bool → JsValue
  | num : Int → JsValue
  | str : String → JsValue
  | arr : List JsValue → JsValue
  | obj : List (String × JsValue) → JsValue

/-- Key lookup in a JavaScript object literal (first binding wins, as object
literals cannot carry duplicate keys). -/
def lookupField : List (String × JsValue) → String → Option JsValue
  | [], _ => none
  | (k, v) :: rest, key => if k = key then some v else lookupField rest key

/-- Property access `v[key]`.  Named properties are absent on arrays and on
primitives, so only object literals can produce a value. -/
def JsValue.get : JsValue → String → Option JsValue
  | .obj fields, key => lookupField fields key
  | _, _ => none

mutual

/-- Element conversion performed by JavaScript `Array.prototype.join`:
`null`/`undefined` become the empty string, other values their string form. -/
def jsJoinElem : JsValue → String
  | .null => ""
  | .undef => ""
  | .bool b => if b then "true" else "false"
  | .num n => toString n
  | .str s => s
  | .arr xs => jsJoinListComma xs
  | .obj _ => "[object Object]"

/-- Comma join used by JavaScript `Array.prototype.toString` on nested
arrays. -/
def jsJoinListComma : List JsValue → String
  | [] => ""
  | [x] => jsJoinElem x
  | x :: y :: rest => jsJoinElem x ++ "," ++ jsJoinListComma (y :: rest)

end

/-- Space join `message.join(' ')` from `extractPrimaryMessage`. -/
def joinBySpace : List JsValue → String
  | [] => ""
  | [x] => jsJoinElem x
  | x :: y :: rest => jsJoinElem x ++ " " ++ joinBySpace (y :: rest)

/-- Enum `ErrorCategory` from `error-category.ts`. -/
inductive ErrorCategory where
  | VALIDATION | AUTHENTICATION | AUTHORIZATION | NOT_FOUND | NETWORK | SERVER | UNKNOWN
deriving DecidableEq, Repr

/-- Enum `ErrorSeverity` from `error-severity.ts`. -/
inductive ErrorSeverity where
  | INFO | WARNING | ERROR | CRITICAL
deriving DecidableEq, Repr

/-- Record `FieldError` from `field-error.ts`. -/
structure FieldError where
  field : String
  message : String
deriving DecidableEq, Repr

/-- The HTTP-specific fields added by `ApiHttpError` (`api-http-error.ts`). -/
structure ApiHttpFields where
  status : Int
  statusText : String
  url : String
  method : String
  backendBody : JsValue

/-- Angular `HttpErrorResponse`, as far as the pipeline reads it: status,
optional status text (the code defends with `?? ''`), the raw error body and
the response headers (Angular normalizes header names to lower case; the
model stores them normalized). -/
structure HttpErrorResponse where
  status : Int
  statusText : Option String
  error : JsValue
  headers : List (String × String)

/-- The original failure retained in an `AppError`'s `cause` slot: either the
transport failure or an arbitrary thrown value. -/
inductive RawCause where
  | ofHttp : HttpErrorResponse → RawCause
  | ofValue : JsValue → RawCause

/-- The `AppError` class hierarchy (`app-error.ts` and subclasses) re-expressed
as a closed tagged record: `name` is the string discriminant each concrete
class constructor fixes, `http` holds the `ApiHttpError` fields when the
variant extends it, and `fieldErrors` is non-empty only for
`ValidationError`. -/
structure AppError where
  name : String
  userMessage : String
  category : ErrorCategory
  severity : ErrorSeverity
  isRetryable : Bool
  correlationId : Option String
  cause : Option RawCause
  http : Option ApiHttpFields
  fieldErrors : List FieldError

/-- Constructor of `NetworkError` (`network-error.ts`): fixed
(NETWORK, ERROR, retryable) tuple, no HTTP fields. -/
def mkNetworkError (userMessage : String) (correlationId : Option String)
    (cause : Option RawCause) : AppError :=
  { name := "NetworkError", userMessage := userMessage,
    category := ErrorCategory.NETWORK, severity := ErrorSeverity.ERROR,
    isRetryable := true, correlationId := correlationId, cause := cause,
    http := none, fieldErrors := [] }

/-- Constructor of `UnexpectedError` (`unexpected-error.ts`): fixed
(UNKNOWN, ERROR, not retryable) tuple, no HTTP fields. -/
def mkUnexpectedError (userMessage : String) (correlationId : Option String)
    (cause : Option RawCause) : AppError :=
  { name := "UnexpectedError", userMessage := userMessage,
    category := ErrorCategory.UNKNOWN, severity := ErrorSeverity.ERROR,
    isRetryable := false, correlationId := correlationId, cause := cause,
    http := none, fieldErrors := [] }

/-- Constructor of `BadRequestError` (`bad-request-error.ts`): fixed
(VALIDATION, WARNING, not retryable, status 400) tuple. -/
def mkBadRequestError (userMessage statusText url method : String)
    (backendBody : JsValue) (correlationId : Option String)
    (cause : Option RawCause) : AppError :=
  { name := "BadRequestError", userMessage := userMessage,
    category := ErrorCategory.VALIDATION, severity := ErrorSeverity.WARNING,
    isRetryable := false, correlationId := correlationId, cause := cause,
    http := some { status := 400, statusText := statusText, url := url,
                   method := method, backendBody := backendBody },
    fieldErrors := [] }

/-- Constructor of `ValidationError` (`validation-error.ts`): fixed
(VALIDATION, WARNING, not retryable) tuple with caller-supplied status and
field errors. -/
def mkValidationError (status : Int) (statusText url method : String)
    (backendBody : JsValue) (userMessage : String)
    (fieldErrors : List FieldError) (correlationId : Option String)
    (cause : Option RawCause) : AppError :=
  { name := "ValidationError", userMessage := userMessage,
    category := ErrorCategory.VALIDATION, severity := ErrorSeverity.WARNING,
    isRetryable := false, correlationId := correlationId, cause := cause,
    http := some { status := status, statusText := statusText, url := url,
                   method := method, backendBody := backendBody },
    fieldErrors := fieldErrors }

/-- Constructor of `UnauthorizedError` (`unauthorized-error.ts`): fixed
(AUTHENTICATION, ERROR, not retryable, status 401) tuple. -/
def mkUnauthorizedError (userMessage statusText url method : String)
    (backendBody : JsValue) (correlationId : Option String)
    (cause : Option RawCause) : AppError :=
  { name := "UnauthorizedError", userMessage := userMessage,
    category := ErrorCategory.AUTHENTICATION, severity := ErrorSeverity.ERROR,
    isRetryable := false, correlationId := correlationId, cause := cause,
    http := some { status := 401, statusText := statusText, url := url,
                   method := method, backendBody := backendBody },
    fieldErrors := [] }

/-- Constructor of `ForbiddenError` (`forbidden-error.ts`): fixed
(AUTHORIZATION, ERROR, not retryable, status 403) tuple. -/
def mkForbiddenError (userMessage statusText url method : String)
    (backendBody : JsValue) (correlationId : Option String)
    (cause : Option RawCause) : AppError :=
  { name := "ForbiddenError", userMessage := userMessage,
    category := ErrorCategory.AUTHORIZATION, severity := ErrorSeverity.ERROR,
    isRetryable := false, correlationId := correlationId, cause := cause,
    http := some { status := 403, statusText := statusText, url := url,
                   method := method, backendBody := backendBody },
    fieldErrors := [] }

/-- Constructor of `NotFoundError` (`not-found-error.ts`): fixed
(NOT_FOUND, WARNING, not retryable, status 404) tuple. -/
def mkNotFoundError (userMessage statusText url method : String)
    (backendBody : JsValue) (correlationId : Option String)
    (cause : Option RawCause) : AppError :=
  { name := "NotFoundError", userMessage := userMessage,
    category := ErrorCategory.NOT_FOUND, severity := ErrorSeverity.WARNING,
    isRetryable := false, correlationId := correlationId, cause := cause,
    http := some { status := 404, statusText := statusText, url := url,
                   method := method, backendBody := backendBody },
    fieldErrors := [] }

/-- Constructor of `ConflictError` (`conflict-error.ts`): fixed
(VALIDATION, WARNING, not retryable, status 409) tuple. -/
def mkConflictError (userMessage statusText url method : String)
    (backendBody : JsValue) (correlationId : Option String)
    (cause : Option RawCause) : AppError :=
  { name := "ConflictError", userMessage := userMessage,
    category := ErrorCategory.VALIDATION, severity := ErrorSeverity.WARNING,
    isRetryable := false, correlationId := correlationId, cause := cause,
    http := some { status := 409, statusText := statusText, url := url,
                   method := method, backendBody := backendBody },
    fieldErrors := [] }

/-- Constructor of `ServerError` (`server-error.ts`): fixed
(SERVER, CRITICAL, retryable) tuple preserving the actual 5xx status. -/
def mkServerError (status : Int) (userMessage statusText url method : String)
    (backendBody : JsValue) (correlationId : Option String)
    (cause : Option RawCause) : AppError :=
  { name := "ServerError", userMessage := userMessage,
    category := ErrorCategory.SERVER, severity := ErrorSeverity.CRITICAL,
    isRetryable := true, correlationId := correlationId, cause := cause,
    http := some { status := status, statusText := statusText, url := url,
                   method := method, backendBody := backendBody },
    fieldErrors := [] }

/-- Angular `HttpRequest`, as far as the pipeline reads it: the full URL with
query parameters, the HTTP method, and the per-request
`SKIP_GLOBAL_ERROR_HANDLING` context flag (token default: `false`). -/
structure HttpRequest where
  urlWithParams : String
  method : String
  skipGlobalErrorHandling : Bool := false

/-- A raw failure observed by the pipeline, mirroring the `instanceof` checks
of `createAppError`: a structured transport failure, an already-classified
`AppError`, or any other thrown value. -/
inductive RawFailure where
  | http : HttpErrorResponse → RawFailure
  | app : AppError → RawFailure
  | value : JsValue → RawFailure

/-- Normalized backend error body `BackendErrorBody` from `error.service.ts`:
absent keys stay `none`, distinguishing "not present" from "present but
empty". -/
structure BackendErrorBody where
  statusCode : Option Int := none
  message : Option (Sum String (List JsValue)) := none
  errorSummary : Option String := none
  details : Option JsValue := none

/-- Translation of `ErrorService.parseBackendErrorBody`: guards against
`null`/`undefined` and non-object payloads, then extracts `statusCode` when a
number, `message` when a string or an array, `error` (as `errorSummary`) when
a string, and passes `errors` through as `details`. -/
def parseBackendErrorBody (backendBody : JsValue) : BackendErrorBody :=
  match backendBody with
  | .null => {}
  | .undef => {}
  | .bool _ => {}
  | .num _ => {}
  | .str _ => {}
  | raw =>
    { statusCode :=
        match raw.get "statusCode" with
        | some (.num n) => some n
        | _ => none,
      message :=
        match raw.get "message" with
        | some (.str s) => some (Sum.inl s)
        | some (.arr xs) => some (Sum.inr xs)
        | _ => none,
      errorSummary :=
        match raw.get "error" with
        | some (.str s) => some s
        | _ => none,
      details := raw.get "errors" }

/-- The `errorSummary` fallback at the end of `extractPrimaryMessage`: used
only when it is a string and non-empty. -/
def summaryFallback (body : BackendErrorBody) : Option String :=
  match body.errorSummary with
  | some s => if s ≠ "" then some s else none
  | none => none

/-- Translation of `ErrorService.extractPrimaryMessage`: `null`/`undefined`
yield nothing, a string body is returned directly, other primitives yield
nothing; for object-like bodies the normalized `message` is used (a non-empty
array is joined with spaces), else the non-empty `errorSummary`. -/
def extractPrimaryMessage (backendBody : JsValue) : Option String :=
  match backendBody with
  | .null => none
  | .undef => none
  | .str s => some s
  | .bool _ => none
  | .num _ => none
  | raw =>
    let body := parseBackendErrorBody raw
    match body.message with
    | some (Sum.inl s) => some s
    | some (Sum.inr xs) =>
      if xs.length > 0 then some (joinBySpace xs) else summaryFallback body
    | none => summaryFallback body

/-- Per-entry extraction step of `ErrorService.extractFieldErrors`: the entry
is skipped unless it is object-like and exposes a string `field` and a string
`message`. -/
def fieldErrorOfEntry (err : JsValue) : Option FieldError :=
  match err with
  | .null => none
  | .undef => none
  | .str _ => none
  | .bool _ => none
  | .num _ => none
  | e =>
    match e.get "field", e.get "message" with
    | some (.str f), some (.str m) => some { field := f, message := m }
    | _, _ => none

/-- Translation of `ErrorService.extractFieldErrors`: guards against
non-object bodies, requires the normalized `details` to be an array, and
collects the well-formed entries in order, skipping malformed ones. -/
def extractFieldErrors (backendBody : JsValue) : List FieldError :=
  match backendBody with
  | .null => []
  | .undef => []
  | .str _ => []
  | .bool _ => []
  | .num _ => []
  | b =>
    match (parseBackendErrorBody b).details with
    | some (.arr ds) => ds.filterMap fieldErrorOfEntry
    | _ => []

/-- Translation of `ErrorService.createBadRequestError`: a `ValidationError`
when at least one structured field error was extracted, otherwise a plain
`BadRequestError`. -/
def createBadRequestError (statusText : String) (backendBody : JsValue)
    (request : HttpRequest) (correlationId : Option String)
    (cause : Option RawCause) : AppError :=
  let fieldErrors := extractFieldErrors backendBody
  let primaryMessage :=
    (extractPrimaryMessage backendBody).getD "Please check your input and try again."
  if fieldErrors.length > 0 then
    mkValidationError 400 statusText request.urlWithParams request.method
      backendBody primaryMessage fieldErrors correlationId cause
  else
    mkBadRequestError primaryMessage statusText request.urlWithParams
      request.method backendBody correlationId cause

/-- Translation of `ErrorService.createFromHttpErrorResponse`: the status
switch of the classifier.  The `$localize` template literals are embedded as
their source-language strings. -/
def createFromHttpErrorResponse (error : HttpErrorResponse)
    (request : HttpRequest) (correlationId : Option String) : AppError :=
  let status := error.status
  let statusText := error.statusText.getD ""
  let backendBody := error.error
  let requestUrl := request.urlWithParams
  let requestMethod := request.method
  let cause := some (RawCause.ofHttp error)
  if status = 0 then
    mkNetworkError
      "Unable to reach the server. Please check your internet connection."
      correlationId cause
  else if status = 400 then
    createBadRequestError statusText backendBody request correlationId cause
  else if status = 401 then
    mkUnauthorizedError
      ((extractPrimaryMessage backendBody).getD
        "Your session has expired. Please sign in again.")
      statusText requestUrl requestMethod backendBody correlationId cause
  else if status = 403 then
    mkForbiddenError
      ((extractPrimaryMessage backendBody).getD
        "You do not have permission to perform this action.")
      statusText requestUrl requestMethod backendBody correlationId cause
  else if status = 404 then
    mkNotFoundError
      ((extractPrimaryMessage backendBody).getD
        "The requested resource was not found.")
      statusText requestUrl requestMethod backendBody correlationId cause
  else if status = 409 then
    mkConflictError
      ((extractPrimaryMessage backendBody).getD
        "A conflict occurred. Please refresh and try again.")
      statusText requestUrl requestMethod backendBody correlationId cause
  else if 500 ≤ status ∧ status ≤ 599 then
    mkServerError status
      ((extractPrimaryMessage backendBody).getD
        "A server error occurred. Please try again later.")
      statusText requestUrl requestMethod backendBody correlationId cause
  else
    mkUnexpectedError
      ((extractPrimaryMessage backendBody).getD
        "Request failed. Please try again.")
      correlationId cause

/-- Translation of `ErrorService.createAppError`: transport failures are
dispatched on their status, an already-classified `AppError` is returned
unchanged, and anything else is wrapped as an `UnexpectedError` retaining the
original value as `cause`. -/
def createAppError (error : RawFailure) (request : HttpRequest)
    (correlationId : Option String) : AppError :=
  match error with
  | .http e => createFromHttpErrorResponse e request correlationId
  | .app e => e
  | .value v =>
    mkUnexpectedError "An unexpected error occurred. Please try again."
      correlationId (some (RawCause.ofValue v))

/-- Ordered side effects performed inside the interceptor's failure branch:
the notification-sink call and the locale-aware navigation to the sign-in
route (`localeService.navigateWithLocale(['login'])`). -/
inductive PipeEvent where
  | notified : AppError → PipeEvent
  | navigatedToSignIn : PipeEvent

/-- What the caller observes from the pipeline: the response passed through,
or a re-raised failure value. -/
inductive PipeResult where
  | ok : PipeResult
  | raised : RawFailure → PipeResult

/-- Outcome reported by the underlying transport for one request. -/
inductive HttpOutcome where
  | success : HttpOutcome
  | failure : RawFailure → HttpOutcome

/-- Header read `err.headers?.get('x-correlation-id') ?? undefined` (first
matching header, names stored lower-case as Angular normalizes them). -/
def lookupHeader : List (String × String) → String → Option String
  | [], _ => none
  | (k, v) :: rest, key => if k = key then some v else lookupHeader rest key

/-- Correlation-id extraction of the interceptor: read from the response
headers when the failure is an `HttpErrorResponse`, `undefined` otherwise. -/
def headerCorrelationId (err : RawFailure) : Option String :=
  match err with
  | .http e => lookupHeader e.headers "x-correlation-id"
  | _ => none

/-- Translation of `httpErrorInterceptor`: when the `SKIP_GLOBAL_ERROR_HANDLING`
context flag is set the request passes through untouched; otherwise a failure
is classified, notified, followed for `UnauthorizedError` by the sign-in
navigation, and the classified error is re-raised to the caller.  The result
pairs the ordered side-effect trace with what the caller observes; the trace
order mirrors the statement order of the `catchError` callback, all of which
runs before `throwError` delivers the error. -/
def httpErrorInterceptor (req : HttpRequest) (outcome : HttpOutcome) :
    List PipeEvent × PipeResult :=
  if req.skipGlobalErrorHandling then
    match outcome with
    | .success => ([], PipeResult.ok)
    | .failure err => ([], PipeResult.raised err)
  else
    match outcome with
    | .success => ([], PipeResult.ok)
    | .failure err =>
      let correlationId := headerCorrelationId err
      let appError := createAppError err req correlationId
      if appError.name = "UnauthorizedError" then
        ([PipeEvent.notified appError, PipeEvent.navigatedToSignIn],
         PipeResult.raised (RawFailure.app appError))
      else
        ([PipeEvent.notified appError],
         PipeResult.raised (RawFailure.app appError))

/-- Enum `ToastType` from `toast-type.ts`. -/
inductive ToastType where
  | SUCCESS | INFO | WARNING | ERROR
deriving DecidableEq, Repr

/-- Record `ToastNotification` from `toast-notification.ts`. -/
structure ToastNotification where
  id : Nat
  message : String
  type : ToastType
  autohide : Bool
  delayMs : Nat
deriving DecidableEq, Repr

/-- State of `NotificationService`: the `activeToastsSignal` list and the
`nextId` counter. -/
structure NotificationState where
  activeToasts : List ToastNotification
  nextId : Nat
deriving DecidableEq, Repr

/-- Initial state of `NotificationService`: empty toast list, counter at 1. -/
def initialNotificationState : NotificationState :=
  { activeToasts := [], nextId := 1 }

/-- Translation of `NotificationService.mapSeverityToToastType`. -/
def mapSeverityToToastType : ErrorSeverity → ToastType
  | .INFO => ToastType.INFO
  | .WARNING => ToastType.WARNING
  | .CRITICAL => ToastType.ERROR
  | .ERROR => ToastType.ERROR

/-- Translation of the private `NotificationService.showToast`: builds the
toast with the current counter value, increments the counter and appends the
toast to the active list. -/
def showToast (s : NotificationState) (message : String) (type : ToastType)
    (autohide : Bool) (delayMs : Nat) : NotificationState :=
  let toast : ToastNotification :=
    { id := s.nextId, message := message, type := type, autohide := autohide,
      delayMs := delayMs }
  { activeToasts := s.activeToasts ++ [toast], nextId := s.nextId + 1 }

/-- Translation of `NotificationService.showErrorFromAppError`. -/
def showErrorFromAppError (s : NotificationState) (error : AppError) :
    NotificationState :=
  showToast s error.userMessage (mapSeverityToToastType error.severity) true 6000

/-- Translation of `NotificationService.showSuccess`. -/
def showSuccess (s : NotificationState) (message : String) : NotificationState :=
  showToast s message ToastType.SUCCESS true 3500

/-- Translation of `NotificationService.showInfo`. -/
def showInfo (s : NotificationState) (message : String) : NotificationState :=
  showToast s message ToastType.INFO true 4500

/-- Translation of `NotificationService.showWarning`. -/
def showWarning (s : NotificationState) (message : String) : NotificationState :=
  showToast s message ToastType.WARNING true 6000

/-- Translation of `NotificationService.dismissToast`: keeps exactly the
toasts whose id differs from the dismissed one. -/
def dismissToast (s : NotificationState) (toastId : Nat) : NotificationState :=
  { activeToasts := s.activeToasts.filter (fun t => t.id != toastId),
    nextId := s.nextId }

/-- One public call to `NotificationService`: the four toast-queueing entry
points and dismissal. -/
inductive SinkOp where
  | errFromApp : AppError → SinkOp
  | success : String → SinkOp
  | info : String → SinkOp
  | warning : String → SinkOp
  | dismiss : Nat → SinkOp

/-- Whether the call queues a toast (all entry points except dismissal). -/
def SinkOp.isShow : SinkOp → Bool
  | .dismiss _ => false
  | _ => true

/-- Applies one `NotificationService` call to the service state. -/
def applySinkOp (s : NotificationState) : SinkOp → NotificationState
  | .errFromApp e => showErrorFromAppError s e
  | .success m => showSuccess s m
  | .info m => showInfo s m
  | .warning m => showWarning s m
  | .dismiss i => dismissToast s i

/-- Runs a sequence of `NotificationService` calls from a state. -/
def runSinkOps (s : NotificationState) : List SinkOp → NotificationState
  | [] => s
  | op :: rest => runSinkOps (applySinkOp s op) rest

/-- The identifiers assigned to the successively queued toasts along a
sequence of `NotificationService` calls. -/
def assignedIds (s : NotificationState) : List SinkOp → List Nat
  | [] => []
  | op :: rest =>
    if op.isShow then s.nextId :: assignedIds (applySinkOp s op) rest
    else assignedIds (applySinkOp s op) rest

/-- Fixture request used to instantiate universally quantified theorems. -/
def sampleRequest : HttpRequest :=
  { urlWithParams := "http://localhost:3000/group?x=1", method := "GET" }

/-- Fixture transport failure with a given status, a null body and no
headers. -/
def sampleResponse (status : Int) : HttpErrorResponse :=
  { status := status, statusText := some "st", error := JsValue.null,
    headers := [] }

theorem createFrom_status_zero (e : HttpErrorResponse) (req : HttpRequest)
    (cid : Option String) (h : e.status = 0) :
    createFromHttpErrorResponse e req cid =
      mkNetworkError
        "Unable to reach the server. Please check your internet connection."
        cid (some (RawCause.ofHttp e)) := by
  simp [createFromHttpErrorResponse, h]

theorem createFrom_status_400 (e : HttpErrorResponse) (req : HttpRequest)
    (cid : Option String) (h : e.status = 400) :
    createFromHttpErrorResponse e req cid =
      createBadRequestError (e.statusText.getD "") e.error req cid
        (some (RawCause.ofHttp e)) := by
  simp [createFromHttpErrorResponse, h]

theorem createFrom_status_401 (e : HttpErrorResponse) (req : HttpRequest)
    (cid : Option String) (h : e.status = 401) :
    createFromHttpErrorResponse e req cid =
      mkUnauthorizedError
        ((extractPrimaryMessage e.error).getD
          "Your session has expired. Please sign in again.")
        (e.statusText.getD "") req.urlWithParams req.method e.error cid
        (some (RawCause.ofHttp e)) := by
  simp [createFromHttpErrorResponse, h]

theorem createFrom_status_403 (e : HttpErrorResponse) (req : HttpRequest)
    (cid : Option String) (h : e.status = 403) :
    createFromHttpErrorResponse e req cid =
      mkForbiddenError
        ((extractPrimaryMessage e.error).getD
          "You do not have permission to perform this action.")
        (e.statusText.getD "") req.urlWithParams req.method e.error cid
        (some (RawCause.ofHttp e)) := by
  simp [createFromHttpErrorResponse, h]

theorem createFrom_status_404 (e : HttpErrorResponse) (req : HttpRequest)
    (cid : Option String) (h : e.status = 404) :
    createFromHttpErrorResponse e req cid =
      mkNotFoundError
        ((extractPrimaryMessage e.error).getD
          "The requested resource was not found.")
        (e.statusText.getD "") req.urlWithParams req.method e.error cid
        (some (RawCause.ofHttp e)) := by
  simp [createFromHttpErrorResponse, h]

theorem createFrom_status_409 (e : HttpErrorResponse) (req : HttpRequest)
    (cid : Option String) (h : e.status = 409) :
    createFromHttpErrorResponse e req cid =
      mkConflictError
        ((extractPrimaryMessage e.error).getD
          "A conflict occurred. Please refresh and try again.")
        (e.statusText.getD "") req.urlWithParams req.method e.error cid
        (some (RawCause.ofHttp e)) := by
  simp [createFromHttpErrorResponse, h]

theorem createFrom_status_5xx (e : HttpErrorResponse) (req : HttpRequest)
    (cid : Option String) (h : 500 ≤ e.status ∧ e.status ≤ 599) :
    createFromHttpErrorResponse e req cid =
      mkServerError e.status
        ((extractPrimaryMessage e.error).getD
          "A server error occurred. Please try again later.")
        (e.statusText.getD "") req.urlWithParams req.method e.error cid
        (some (RawCause.ofHttp e)) := by
  obtain ⟨h1, h2⟩ := h
  have h0 : e.status ≠ 0 := by omega
  have h400 : e.status ≠ 400 := by omega
  have h401 : e.status ≠ 401 := by omega
  have h403 : e.status ≠ 403 := by omega
  have h404 : e.status ≠ 404 := by omega
  have h409 : e.status ≠ 409 := by omega
  simp [createFromHttpErrorResponse, h0, h400, h401, h403, h404, h409, h1, h2]

theorem createFrom_status_other (e : HttpErrorResponse) (req : HttpRequest)
    (cid : Option String) (h0 : e.status ≠ 0) (h400 : e.status ≠ 400)
    (h401 : e.status ≠ 401) (h403 : e.status ≠ 403) (h404 : e.status ≠ 404)
    (h409 : e.status ≠ 409) (h5xx : ¬(500 ≤ e.status ∧ e.status ≤ 599)) :
    createFromHttpErrorResponse e req cid =
      mkUnexpectedError
        ((extractPrimaryMessage e.error).getD "Request failed. Please try again.")
        cid (some (RawCause.ofHttp e)) := by
  simp [createFromHttpErrorResponse, h0, h400, h401, h403, h404, h409, h5xx]

/-- C1: a structured transport failure is classified by the status table,
with each variant's fixed (category, severity, isRetryable, status) tuple:
0 → NetworkError (NETWORK, ERROR, retryable, no HTTP fields); 400 →
BadRequestError or ValidationError (VALIDATION, WARNING, not retryable,
status 400); 401 → UnauthorizedError (AUTHENTICATION, ERROR, not retryable,
status 401); 403 → ForbiddenError (AUTHORIZATION, ERROR, not retryable,
status 403); 404 → NotFoundError (NOT_FOUND, WARNING, not retryable, status
404); 409 → ConflictError (VALIDATION, WARNING, not retryable, status 409);
any 500–599 → ServerError (SERVER, CRITICAL, retryable, preserving the
actual status); any other status → UnexpectedError (UNKNOWN, ERROR, not
retryable). -/
theorem c1_status_table (e : HttpErrorResponse) (req : HttpRequest)
    (cid : Option String) :
    (e.status = 0 →
      (createAppError (RawFailure.http e) req cid).name = "NetworkError" ∧
      (createAppError (RawFailure.http e) req cid).category = ErrorCategory.NETWORK ∧
      (createAppError (RawFailure.http e) req cid).severity = ErrorSeverity.ERROR ∧
      (createAppError (RawFailure.http e) req cid).isRetryable = true ∧
      (createAppError (RawFailure.http e) req cid).http = none) ∧
    (e.status = 400 →
      ((createAppError (RawFailure.http e) req cid).name = "BadRequestError" ∨
       (createAppError (RawFailure.http e) req cid).name = "ValidationError") ∧
      (createAppError (RawFailure.http e) req cid).category = ErrorCategory.VALIDATION ∧
      (createAppError (RawFailure.http e) req cid).severity = ErrorSeverity.WARNING ∧
      (createAppError (RawFailure.http e) req cid).isRetryable = false ∧
      ∃ hf, (createAppError (RawFailure.http e) req cid).http = some hf ∧
        hf.status = 400) ∧
    (e.status = 401 →
      (createAppError (RawFailure.http e) req cid).name = "UnauthorizedError" ∧
      (createAppError (RawFailure.http e) req cid).category = ErrorCategory.AUTHENTICATION ∧
      (createAppError (RawFailure.http e) req cid).severity = ErrorSeverity.ERROR ∧
      (createAppError (RawFailure.http e) req cid).isRetryable = false ∧
      ∃ hf, (createAppError (RawFailure.http e) req cid).http = some hf ∧
        hf.status = 401) ∧
    (e.status = 403 →
      (createAppError (RawFailure.http e) req cid).name = "ForbiddenError" ∧
      (createAppError (RawFailure.http e) req cid).category = ErrorCategory.AUTHORIZATION ∧
      (createAppError (RawFailure.http e) req cid).severity = ErrorSeverity.ERROR ∧
      (createAppError (RawFailure.http e) req cid).isRetryable = false ∧
      ∃ hf, (createAppError (RawFailure.http e) req cid).http = some hf ∧
        hf.status = 403) ∧
    (e.status = 404 →
      (createAppError (RawFailure.http e) req cid).name = "NotFoundError" ∧
      (createAppError (RawFailure.http e) req cid).category = ErrorCategory.NOT_FOUND ∧
      (createAppError (RawFailure.http e) req cid).severity = ErrorSeverity.WARNING ∧
      (createAppError (RawFailure.http e) req cid).isRetryable = false ∧
      ∃ hf, (createAppError (RawFailure.http e) req cid).http = some hf ∧
        hf.status = 404) ∧
    (e.status = 409 →
      (createAppError (RawFailure.http e) req cid).name = "ConflictError" ∧
      (createAppError (RawFailure.http e) req cid).category = ErrorCategory.VALIDATION ∧
      (createAppError (RawFailure.http e) req cid).severity = ErrorSeverity.WARNING ∧
      (createAppError (RawFailure.http e) req cid).isRetryable = false ∧
      ∃ hf, (createAppError (RawFailure.http e) req cid).http = some hf ∧
        hf.status = 409) ∧
    (500 ≤ e.status ∧ e.status ≤ 599 →
      (createAppError (RawFailure.http e) req cid).name = "ServerError" ∧
      (createAppError (RawFailure.http e) req cid).category = ErrorCategory.SERVER ∧
      (createAppError (RawFailure.http e) req cid).severity = ErrorSeverity.CRITICAL ∧
      (createAppError (RawFailure.http e) req cid).isRetryable = true ∧
      ∃ hf, (createAppError (RawFailure.http e) req cid).http = some hf ∧
        hf.status = e.status) ∧
    (e.status ≠ 0 → e.status ≠ 400 → e.status ≠ 401 → e.status ≠ 403 →
      e.status ≠ 404 → e.status ≠ 409 → ¬(500 ≤ e.status ∧ e.status ≤ 599) →
      (createAppError (RawFailure.http e) req cid).name = "UnexpectedError" ∧
      (createAppError (RawFailure.http e) req cid).category = ErrorCategory.UNKNOWN ∧
      (createAppError (RawFailure.http e) req cid).severity = ErrorSeverity.ERROR ∧
      (createAppError (RawFailure.http e) req cid).isRetryable = false) := by
  refine ⟨fun h => ?_, fun h => ?_, fun h => ?_, fun h => ?_, fun h => ?_,
    fun h => ?_, fun h => ?_, fun h0 h400 h401 h403 h404 h409 h5xx => ?_⟩
  · rw [show createAppError (RawFailure.http e) req cid =
      createFromHttpErrorResponse e req cid from rfl,
      createFrom_status_zero e req cid h]
    simp [mkNetworkError]
  · rw [show createAppError (RawFailure.http e) req cid =
      createFromHttpErrorResponse e req cid from rfl,
      createFrom_status_400 e req cid h]
    unfold createBadRequestError
    by_cases hf : (extractFieldErrors e.error).length > 0
    · simp only [hf, if_true]
      exact ⟨Or.inr rfl, rfl, rfl, rfl, _, rfl, rfl⟩
    · simp only [hf, if_false]
      exact ⟨Or.inl rfl, rfl, rfl, rfl, _, rfl, rfl⟩
  · rw [show createAppError (RawFailure.http e) req cid =
      createFromHttpErrorResponse e req cid from rfl,
      createFrom_status_401 e req cid h]
    exact ⟨rfl, rfl, rfl, rfl, _, rfl, rfl⟩
  · rw [show createAppError (RawFailure.http e) req cid =
      createFromHttpErrorResponse e req cid from rfl,
      createFrom_status_403 e req cid h]
    exact ⟨rfl, rfl, rfl, rfl, _, rfl, rfl⟩
  · rw [show createAppError (RawFailure.http e) req cid =
      createFromHttpErrorResponse e req cid from rfl,
      createFrom_status_404 e req cid h]
    exact ⟨rfl, rfl, rfl, rfl, _, rfl, rfl⟩
  · rw [show createAppError (RawFailure.http e) req cid =
      createFromHttpErrorResponse e req cid from rfl,
      createFrom_status_409 e req cid h]
    exact ⟨rfl, rfl, rfl, rfl, _, rfl, rfl⟩
  · rw [show createAppError (RawFailure.http e) req cid =
      createFromHttpErrorResponse e req cid from rfl,
      createFrom_status_5xx e req cid h]
    exact ⟨rfl, rfl, rfl, rfl, _, rfl, rfl⟩
  · rw [show createAppError (RawFailure.http e) req cid =
      createFromHttpErrorResponse e req cid from rfl,
      createFrom_status_other e req cid h0 h400 h401 h403 h404 h409 h5xx]
    exact ⟨rfl, rfl, rfl, rfl⟩

/-- Witness for C1: the status table evaluated at statuses 0, 400, 503 and
999 on concrete responses. -/
theorem c1_status_table_witness :
    ((createAppError (RawFailure.http (sampleResponse 0)) sampleRequest none).name
        = "NetworkError" ∧
      (createAppError (RawFailure.http (sampleResponse 0)) sampleRequest none).http
        = none) ∧
    ((createAppError (RawFailure.http (sampleResponse 400)) sampleRequest none).name
        = "BadRequestError" ∨
      (createAppError (RawFailure.http (sampleResponse 400)) sampleRequest none).name
        = "ValidationError") ∧
    (createAppError (RawFailure.http (sampleResponse 503)) sampleRequest none).category
      = ErrorCategory.SERVER ∧
    (createAppError (RawFailure.http (sampleResponse 999)) sampleRequest none).name
      = "UnexpectedError" := by
  have t0 := c1_status_table (sampleResponse 0) sampleRequest none
  have t400 := c1_status_table (sampleResponse 400) sampleRequest none
  have t503 := c1_status_table (sampleResponse 503) sampleRequest none
  have t999 := c1_status_table (sampleResponse 999) sampleRequest none
  refine ⟨⟨(t0.1 rfl).1, (t0.1 rfl).2.2.2.2⟩, (t400.2.1 rfl).1, ?_, ?_⟩
  · exact (t503.2.2.2.2.2.2.1 (by norm_num [sampleResponse])).2.1
  · exact (t999.2.2.2.2.2.2.2 (by norm_num [sampleResponse])
      (by norm_num [sampleResponse]) (by norm_num [sampleResponse])
      (by norm_num [sampleResponse]) (by norm_num [sampleResponse])
      (by norm_num [sampleResponse]) (by norm_num [sampleResponse])).1

/-- C2: the classifier is total — every raw failure (transport failure,
arbitrary thrown value, or already-classified AppError) maps to exactly one
AppError — and any input that is neither an HttpErrorResponse nor an AppError
is wrapped as an UnexpectedError with the fixed default message, the original
value retained as its `cause`. -/
theorem c2_classifier_total (x : RawFailure) (req : HttpRequest)
    (cid : Option String) :
    (∃! r : AppError, createAppError x req cid = r) ∧
    (∀ v : JsValue, x = RawFailure.value v →
      createAppError x req cid =
        mkUnexpectedError "An unexpected error occurred. Please try again."
          cid (some (RawCause.ofValue v))) := by
  refine ⟨⟨createAppError x req cid, rfl, fun r h => h.symm⟩, ?_⟩
  rintro v rfl
  rfl

/-- Witness for C2: the classifier applied to a thrown plain string. -/
theorem c2_classifier_total_witness :
    createAppError (RawFailure.value (JsValue.str "boom")) sampleRequest none =
      mkUnexpectedError "An unexpected error occurred. Please try again."
        none (some (RawCause.ofValue (JsValue.str "boom"))) :=
  (c2_classifier_total (RawFailure.value (JsValue.str "boom")) sampleRequest
      none).2 (JsValue.str "boom") rfl

/-- C7: classification is idempotent — re-classifying the classifier's output
(under any request context and correlation id) returns it unchanged, and an
input that is already an AppError is returned as that very value. -/
theorem c7_classify_idempotent (x : RawFailure) (req req' : HttpRequest)
    (cid cid' : Option String) (a : AppError) :
    createAppError (RawFailure.app (createAppError x req cid)) req' cid' =
      createAppError x req cid ∧
    createAppError (RawFailure.app a) req' cid' = a :=
  ⟨rfl, rfl⟩

/-- Fixture request carrying the `SKIP_GLOBAL_ERROR_HANDLING` opt-out flag. -/
def skippingRequest : HttpRequest :=
  { urlWithParams := "http://localhost:3000/whoami", method := "GET",
    skipGlobalErrorHandling := true }

/-- C3: for a failing request with the opt-out flag unset, when the
classified error is an UnauthorizedError the pipeline performs exactly one
notification call and exactly one navigation-to-sign-in call, in that order,
both before the classified AppError is delivered to the caller; for any
other classified variant no navigation call is made. -/
theorem c3_session_expiry_ordering (req : HttpRequest) (err : RawFailure)
    (hskip : req.skipGlobalErrorHandling = false) :
    ((createAppError err req (headerCorrelationId err)).name = "UnauthorizedError" →
      httpErrorInterceptor req (HttpOutcome.failure err) =
        ([PipeEvent.notified (createAppError err req (headerCorrelationId err)),
          PipeEvent.navigatedToSignIn],
         PipeResult.raised
           (RawFailure.app (createAppError err req (headerCorrelationId err))))) ∧
    ((createAppError err req (headerCorrelationId err)).name ≠ "UnauthorizedError" →
      httpErrorInterceptor req (HttpOutcome.failure err) =
        ([PipeEvent.notified (createAppError err req (headerCorrelationId err))],
         PipeResult.raised
           (RawFailure.app (createAppError err req (headerCorrelationId err))))) := by
  constructor
  · intro hname
    simp [httpErrorInterceptor, hskip, hname]
  · intro hname
    simp [httpErrorInterceptor, hskip, hname]

/-- Witness for C3: a concrete 401 failure produces the notification followed
by the sign-in navigation, then the classified error; a concrete 404 failure
produces no navigation. -/
theorem c3_session_expiry_ordering_witness :
    httpErrorInterceptor sampleRequest
        (HttpOutcome.failure (RawFailure.http (sampleResponse 401))) =
      ([PipeEvent.notified
          (createAppError (RawFailure.http (sampleResponse 401)) sampleRequest none),
        PipeEvent.navigatedToSignIn],
       PipeResult.raised
         (RawFailure.app
           (createAppError (RawFailure.http (sampleResponse 401)) sampleRequest none))) ∧
    httpErrorInterceptor sampleRequest
        (HttpOutcome.failure (RawFailure.http (sampleResponse 404))) =
      ([PipeEvent.notified
          (createAppError (RawFailure.http (sampleResponse 404)) sampleRequest none)],
       PipeResult.raised
         (RawFailure.app
           (createAppError (RawFailure.http (sampleResponse 404)) sampleRequest none))) := by
  constructor
  · exact (c3_session_expiry_ordering sampleRequest
      (RawFailure.http (sampleResponse 401)) rfl).1 rfl
  · exact (c3_session_expiry_ordering sampleRequest
      (RawFailure.http (sampleResponse 404)) rfl).2 (by decide)

/-- C4: for a request carrying the opt-out flag the pipeline is the identity:
no side effects on failure, and the original raw failure — not a classified
AppError — propagates to the caller unchanged. -/
theorem c4_opt_out_passthrough (req : HttpRequest) (outcome : HttpOutcome)
    (hskip : req.skipGlobalErrorHandling = true) :
    (outcome = HttpOutcome.success →
      httpErrorInterceptor req outcome = ([], PipeResult.ok)) ∧
    (∀ err : RawFailure, outcome = HttpOutcome.failure err →
      httpErrorInterceptor req outcome = ([], PipeResult.raised err)) := by
  constructor
  · rintro rfl
    simp [httpErrorInterceptor, hskip]
  · rintro err rfl
    simp [httpErrorInterceptor, hskip]

/-- Witness for C4: a concrete opted-out failing request yields no events and
re-raises the raw failure itself. -/
theorem c4_opt_out_passthrough_witness :
    httpErrorInterceptor skippingRequest
        (HttpOutcome.failure (RawFailure.http (sampleResponse 401))) =
      ([], PipeResult.raised (RawFailure.http (sampleResponse 401))) :=
  (c4_opt_out_passthrough skippingRequest
      (HttpOutcome.failure (RawFailure.http (sampleResponse 401))) rfl).2
    (RawFailure.http (sampleResponse 401)) rfl

/-- Specification-side reading of a well-formed field-error entry, written
from the spec's words: an entry counts exactly when it is an object exposing
a string `field` and a string `message`. -/
def specFieldErrorEntry (v : JsValue) : Option FieldError :=
  match v with
  | .obj fields =>
    match lookupField fields "field", lookupField fields "message" with
    | some (.str f), some (.str m) => some { field := f, message := m }
    | _, _ => none
  | _ => none

theorem fieldErrorOfEntry_eq_spec (v : JsValue) :
    fieldErrorOfEntry v = specFieldErrorEntry v := by
  cases v <;> rfl

theorem extractFieldErrors_eq_details (body : JsValue) :
    extractFieldErrors body =
      (match (parseBackendErrorBody body).details with
       | some (.arr ds) => ds.filterMap fieldErrorOfEntry
       | _ => []) := by
  cases body <;> rfl

/-- Fixture 400 body with one well-formed structured field error. -/
def validationBody : JsValue :=
  .obj [("message", .str "Bad input"), ("error", .str "Bad Request"),
        ("errors", .arr [.obj [("field", .str "email"), ("message", .str "invalid")]])]

/-- Fixture 400 body whose `errors` array holds no well-formed entry. -/
def malformedBody : JsValue :=
  .obj [("errors", .arr [.str "not an object"])]

/-- Fixture 400 response carrying `validationBody`. -/
def response400v : HttpErrorResponse :=
  { status := 400, statusText := some "Bad Request", error := validationBody,
    headers := [] }

/-- Fixture 400 response carrying `malformedBody`. -/
def response400m : HttpErrorResponse :=
  { status := 400, statusText := some "Bad Request", error := malformedBody,
    headers := [] }

/-- C5: for a status-400 failure, when the normalized body's `details` (the
backend `errors` key) is an array, classification returns a ValidationError
whose `fieldErrors` are exactly the well-formed entries (objects with a
string `field` and a string `message`) in their original order, malformed
entries being skipped; when no entry is well-formed, or `details` is absent
or not an array, it returns a plain BadRequestError. -/
theorem c5_field_error_extraction (e : HttpErrorResponse) (req : HttpRequest)
    (cid : Option String) (h : e.status = 400) :
    (∀ ds : List JsValue,
      (parseBackendErrorBody e.error).details = some (JsValue.arr ds) →
      (ds.filterMap specFieldErrorEntry ≠ [] →
        (createAppError (RawFailure.http e) req cid).name = "ValidationError" ∧
        (createAppError (RawFailure.http e) req cid).fieldErrors =
          ds.filterMap specFieldErrorEntry) ∧
      (ds.filterMap specFieldErrorEntry = [] →
        (createAppError (RawFailure.http e) req cid).name = "BadRequestError" ∧
        (createAppError (RawFailure.http e) req cid).fieldErrors = [])) ∧
    ((∀ ds : List JsValue,
        (parseBackendErrorBody e.error).details ≠ some (JsValue.arr ds)) →
      (createAppError (RawFailure.http e) req cid).name = "BadRequestError" ∧
      (createAppError (RawFailure.http e) req cid).fieldErrors = []) := by
  have hcreate : createAppError (RawFailure.http e) req cid =
      createBadRequestError (e.statusText.getD "") e.error req cid
        (some (RawCause.ofHttp e)) := by
    rw [show createAppError (RawFailure.http e) req cid =
      createFromHttpErrorResponse e req cid from rfl,
      createFrom_status_400 e req cid h]
  have hfun : fieldErrorOfEntry = specFieldErrorEntry :=
    funext fieldErrorOfEntry_eq_spec
  constructor
  · intro ds hds
    have hfe : extractFieldErrors e.error = ds.filterMap specFieldErrorEntry := by
      rw [extractFieldErrors_eq_details, hds, hfun]
    constructor
    · intro hne
      have hpos : (extractFieldErrors e.error).length > 0 := by
        rw [hfe]
        exact List.length_pos.mpr hne
      rw [hcreate]
      simp only [createBadRequestError]
      rw [if_pos hpos]
      exact ⟨rfl, hfe⟩
    · intro heq
      have hz : extractFieldErrors e.error = [] := by rw [hfe, heq]
      have hnpos : ¬(extractFieldErrors e.error).length > 0 := by
        rw [hz]
        simp
      rw [hcreate]
      simp only [createBadRequestError]
      rw [if_neg hnpos]
      exact ⟨rfl, rfl⟩
  · intro hnds
    have hz : extractFieldErrors e.error = [] := by
      rw [extractFieldErrors_eq_details]
      cases hd : (parseBackendErrorBody e.error).details with
      | none => rfl
      | some v =>
        cases v with
        | arr ds => exact absurd hd (hnds ds)
        | null => rfl
        | undef => rfl
        | bool b => rfl
        | num n => rfl
        | str s => rfl
        | obj fields => rfl
    have hnpos : ¬(extractFieldErrors e.error).length > 0 := by
      rw [hz]
      simp
    rw [hcreate]
    simp only [createBadRequestError]
    rw [if_neg hnpos]
    exact ⟨rfl, rfl⟩

/-- Witness for C5: the well-formed fixture yields a ValidationError with the
single extracted field error; the malformed fixture yields a plain
BadRequestError. -/
theorem c5_field_error_extraction_witness :
    (createAppError (RawFailure.http response400v) sampleRequest none).name =
      "ValidationError" ∧
    (createAppError (RawFailure.http response400v) sampleRequest none).fieldErrors =
      [{ field := "email", message := "invalid" }] ∧
    (createAppError (RawFailure.http response400m) sampleRequest none).name =
      "BadRequestError" ∧
    (createAppError (RawFailure.http response400m) sampleRequest none).fieldErrors =
      [] := by
  have hv := ((c5_field_error_extraction response400v sampleRequest none rfl).1
    [.obj [("field", .str "email"), ("message", .str "invalid")]] rfl).1
    (by decide)
  have hm := ((c5_field_error_extraction response400m sampleRequest none rfl).1
    [.str "not an object"] rfl).2 (by decide)
  exact ⟨hv.1, hv.2, hm.1, hm.2⟩

/-- Specification-side reading of the claimed message fallback chain, written
from the claim's words: the Normalizer's extracted `message` (joined with
spaces if an array), or else the Normalizer's `errorSummary`, or else the
fixed per-category default. -/
def specClaimMessageChain (body : JsValue) (fallback : String) : String :=
  match (parseBackendErrorBody body).message with
  | some (Sum.inl s) => s
  | some (Sum.inr xs) => joinBySpace xs
  | none =>
    match (parseBackendErrorBody body).errorSummary with
    | some s => s
    | none => fallback

/-- Summary-or-default tail of the amended message chain: the Normalizer's
`errorSummary` when it is a non-empty string, otherwise the fixed default. -/
def specSummaryOrFallback (p : BackendErrorBody) (fallback : String) : String :=
  match p.errorSummary with
  | some s => if s ≠ "" then s else fallback
  | none => fallback

/-- Amended message fallback chain: the raw body itself when the body is a
string; otherwise the Normalizer's extracted `message` (a non-empty array
joined with spaces); otherwise the Normalizer's non-empty `errorSummary`;
otherwise the fixed per-category default. -/
def specAmendedMessageChain (body : JsValue) (fallback : String) : String :=
  match body with
  | .str s => s
  | _ =>
    match (parseBackendErrorBody body).message with
    | some (Sum.inl s) => s
    | some (Sum.inr []) => specSummaryOrFallback (parseBackendErrorBody body) fallback
    | some (Sum.inr (x :: rest)) => joinBySpace (x :: rest)
    | none => specSummaryOrFallback (parseBackendErrorBody body) fallback

theorem summaryFallback_getD (p : BackendErrorBody) (fallback : String) :
    (summaryFallback p).getD fallback = specSummaryOrFallback p fallback := by
  unfold summaryFallback specSummaryOrFallback
  cases p.errorSummary with
  | none => rfl
  | some s =>
    by_cases hs : s ≠ ""
    · simp [hs]
    · simp only [ne_eq, Decidable.not_not] at hs
      simp [hs]

theorem msgChain_aux (p : BackendErrorBody) (fallback : String) :
    (match p.message with
     | some (Sum.inl s) => some s
     | some (Sum.inr xs) =>
       if xs.length > 0 then some (joinBySpace xs) else summaryFallback p
     | none => summaryFallback p).getD fallback
    = (match p.message with
       | some (Sum.inl s) => s
       | some (Sum.inr []) => specSummaryOrFallback p fallback
       | some (Sum.inr (x :: rest)) => joinBySpace (x :: rest)
       | none => specSummaryOrFallback p fallback) := by
  cases hm : p.message with
  | none => simpa using summaryFallback_getD p fallback
  | some m =>
    cases m with
    | inl s => rfl
    | inr xs =>
      cases xs with
      | nil => simpa using summaryFallback_getD p fallback
      | cons x rest => simp

theorem extractPrimary_getD_eq (body : JsValue) (fallback : String) :
    (extractPrimaryMessage body).getD fallback =
      specAmendedMessageChain body fallback := by
  cases body with
  | null => rfl
  | undef => rfl
  | bool b => rfl
  | num n => rfl
  | str s => rfl
  | arr xs => exact msgChain_aux (parseBackendErrorBody (JsValue.arr xs)) fallback
  | obj fields => exact msgChain_aux (parseBackendErrorBody (JsValue.obj fields)) fallback

/-- Fixed default user message for the 401/403/404/409 classifier cases. -/
def defaultUserMessage (status : Int) : String :=
  if status = 401 then "Your session has expired. Please sign in again."
  else if status = 403 then "You do not have permission to perform this action."
  else if status = 404 then "The requested resource was not found."
  else if status = 409 then "A conflict occurred. Please refresh and try again."
  else ""

/-- Fixture 401 response whose raw body is a plain string. -/
def response401s : HttpErrorResponse :=
  { status := 401, statusText := some "Unauthorized", error := .str "boom",
    headers := [] }

/-- Counterexample for C6: for a 401 whose body is the plain string "boom",
the code returns the string itself as `userMessage`, while the claimed chain
(Normalizer `message`, else `errorSummary`, else the fixed default) yields
the fixed default — the two disagree. -/
theorem c6_message_chain_counterexample :
    (createAppError (RawFailure.http response401s) sampleRequest none).userMessage
      = "boom" ∧
    specClaimMessageChain response401s.error (defaultUserMessage response401s.status)
      = "Your session has expired. Please sign in again." ∧
    (createAppError (RawFailure.http response401s) sampleRequest none).userMessage
      ≠ specClaimMessageChain response401s.error (defaultUserMessage response401s.status) := by
  refine ⟨rfl, rfl, ?_⟩
  decide

/-- C6 (amended): for every 401/403/404/409 failure, `userMessage` is the raw
body itself when the body is a string, else the Normalizer's extracted
`message` (a non-empty array joined with spaces), else the Normalizer's
non-empty `errorSummary`, else the fixed per-category default. -/
theorem c6_message_fallback_chain (e : HttpErrorResponse) (req : HttpRequest)
    (cid : Option String)
    (h : e.status = 401 ∨ e.status = 403 ∨ e.status = 404 ∨ e.status = 409) :
    (createAppError (RawFailure.http e) req cid).userMessage =
      specAmendedMessageChain e.error (defaultUserMessage e.status) := by
  rcases h with h | h | h | h
  · rw [show createAppError (RawFailure.http e) req cid =
      createFromHttpErrorResponse e req cid from rfl,
      createFrom_status_401 e req cid h]
    show (extractPrimaryMessage e.error).getD
        "Your session has expired. Please sign in again." = _
    rw [extractPrimary_getD_eq]
    simp [defaultUserMessage, h]
  · rw [show createAppError (RawFailure.http e) req cid =
      createFromHttpErrorResponse e req cid from rfl,
      createFrom_status_403 e req cid h]
    show (extractPrimaryMessage e.error).getD
        "You do not have permission to perform this action." = _
    rw [extractPrimary_getD_eq]
    simp [defaultUserMessage, h]
  · rw [show createAppError (RawFailure.http e) req cid =
      createFromHttpErrorResponse e req cid from rfl,
      createFrom_status_404 e req cid h]
    show (extractPrimaryMessage e.error).getD
        "The requested resource was not found." = _
    rw [extractPrimary_getD_eq]
    simp [defaultUserMessage, h]
  · rw [show createAppError (RawFailure.http e) req cid =
      createFromHttpErrorResponse e req cid from rfl,
      createFrom_status_409 e req cid h]
    show (extractPrimaryMessage e.error).getD
        "A conflict occurred. Please refresh and try again." = _
    rw [extractPrimary_getD_eq]
    simp [defaultUserMessage, h]

/-- Fixture 404 response whose body is an empty object. -/
def response404e : HttpErrorResponse :=
  { status := 404, statusText := some "Not Found", error := .obj [],
    headers := [] }

/-- Witness for C6 (amended): a 404 whose body is the empty object gets the
fixed default "The requested resource was not found.". -/
theorem c6_message_fallback_chain_witness :
    (createAppError (RawFailure.http response404e) sampleRequest none).userMessage =
      "The requested resource was not found." :=
  c6_message_fallback_chain response404e sampleRequest none
    (Or.inr (Or.inr (Or.inl rfl)))

theorem createFrom_correlationId (e : HttpErrorResponse) (req : HttpRequest)
    (cid : Option String) :
    (createFromHttpErrorResponse e req cid).correlationId = cid := by
  simp only [createFromHttpErrorResponse]
  split_ifs
  · rfl
  · simp only [createBadRequestError]
    split_ifs
    · rfl
    · rfl
  · rfl
  · rfl
  · rfl
  · rfl
  · rfl
  · rfl

/-- Fixture already-classified failure carrying its own correlation id and no
response headers. -/
def reclassifiedFailure : AppError :=
  mkNetworkError "offline" (some "abc-123") none

/-- Counterexample for C8: a non-opted-out failure that is an
already-classified AppError carries no response headers, yet the AppError
delivered by the pipeline keeps its existing correlation id instead of the
claimed `undefined`. -/
theorem c8_correlation_counterexample :
    (httpErrorInterceptor sampleRequest
        (HttpOutcome.failure (RawFailure.app reclassifiedFailure))).2 =
      PipeResult.raised (RawFailure.app reclassifiedFailure) ∧
    headerCorrelationId (RawFailure.app reclassifiedFailure) = none ∧
    reclassifiedFailure.correlationId = some "abc-123" ∧
    reclassifiedFailure.correlationId ≠ none := by
  refine ⟨rfl, rfl, rfl, ?_⟩
  simp [reclassifiedFailure, mkNetworkError]

/-- C8 (amended): for a non-opted-out failure that is a transport failure,
the classified error's correlationId equals the `x-correlation-id` response
header when present and is `undefined` when absent; a failure that is an
arbitrary thrown value gets no correlation id; an already-classified
AppError passes through unchanged, keeping its own correlationId; the
pipeline re-raises the error classified with the header-extracted id, never
fabricating one. -/
theorem c8_correlation_propagation (req : HttpRequest) (e : HttpErrorResponse)
    (v : JsValue) (a : AppError)
    (hskip : req.skipGlobalErrorHandling = false) :
    ((createAppError (RawFailure.http e) req
        (headerCorrelationId (RawFailure.http e))).correlationId =
      lookupHeader e.headers "x-correlation-id") ∧
    ((createAppError (RawFailure.value v) req
        (headerCorrelationId (RawFailure.value v))).correlationId = none) ∧
    (createAppError (RawFailure.app a) req
        (headerCorrelationId (RawFailure.app a)) = a) ∧
    ((httpErrorInterceptor req (HttpOutcome.failure (RawFailure.http e))).2 =
      PipeResult.raised
        (RawFailure.app
          (createAppError (RawFailure.http e) req
            (lookupHeader e.headers "x-correlation-id")))) := by
  refine ⟨createFrom_correlationId e req _, rfl, rfl, ?_⟩
  simp only [httpErrorInterceptor, hskip]
  rw [if_neg (by simp)]
  split_ifs <;> rfl

/-- Fixture 404 response carrying an `x-correlation-id` header. -/
def responseWithHeader : HttpErrorResponse :=
  { status := 404, statusText := some "Not Found", error := .obj [],
    headers := [("x-correlation-id", "abc-123")] }

/-- Witness for C8 (amended): the header value `abc-123` is propagated, and a
headerless failure gets no correlation id. -/
theorem c8_correlation_propagation_witness :
    (createAppError (RawFailure.http responseWithHeader) sampleRequest
        (headerCorrelationId (RawFailure.http responseWithHeader))).correlationId =
      some "abc-123" ∧
    (createAppError (RawFailure.http response404e) sampleRequest
        (headerCorrelationId (RawFailure.http response404e))).correlationId =
      none := by
  constructor
  · exact (c8_correlation_propagation sampleRequest responseWithHeader
      JsValue.null reclassifiedFailure rfl).1
  · exact (c8_correlation_propagation sampleRequest response404e
      JsValue.null reclassifiedFailure rfl).1

theorem applySinkOp_show_nextId (s : NotificationState) (op : SinkOp)
    (h : op.isShow = true) : (applySinkOp s op).nextId = s.nextId + 1 := by
  cases op with
  | dismiss i => simp [SinkOp.isShow] at h
  | errFromApp e => rfl
  | success m => rfl
  | info m => rfl
  | warning m => rfl

theorem applySinkOp_nextId_le (s : NotificationState) (op : SinkOp) :
    s.nextId ≤ (applySinkOp s op).nextId := by
  cases op with
  | dismiss i => exact Nat.le_refl _
  | errFromApp e => exact Nat.le_succ _
  | success m => exact Nat.le_succ _
  | info m => exact Nat.le_succ _
  | warning m => exact Nat.le_succ _

theorem applySinkOp_show_appends (s : NotificationState) (op : SinkOp)
    (h : op.isShow = true) :
    ∃ t : ToastNotification,
      (applySinkOp s op).activeToasts = s.activeToasts ++ [t] ∧
      t.id = s.nextId := by
  cases op with
  | dismiss i => simp [SinkOp.isShow] at h
  | errFromApp e => exact ⟨_, rfl, rfl⟩
  | success m => exact ⟨_, rfl, rfl⟩
  | info m => exact ⟨_, rfl, rfl⟩
  | warning m => exact ⟨_, rfl, rfl⟩

theorem assignedIds_lb (ops : List SinkOp) :
    ∀ (s : NotificationState) (i : ℕ), i ∈ assignedIds s ops → s.nextId ≤ i := by
  induction ops with
  | nil =>
    intro s i h
    simp [assignedIds] at h
  | cons op rest ih =>
    intro s i h
    by_cases hs : op.isShow = true
    · rw [assignedIds, if_pos hs] at h
      rcases List.mem_cons.mp h with h1 | h2
      · exact Nat.le_of_eq h1.symm
      · have h3 := ih (applySinkOp s op) i h2
        have h4 := applySinkOp_show_nextId s op hs
        omega
    · rw [assignedIds, if_neg hs] at h
      have h3 := ih (applySinkOp s op) i h
      have h4 := applySinkOp_nextId_le s op
      omega

theorem assignedIds_chain (ops : List SinkOp) :
    ∀ s : NotificationState, List.Chain' (· < ·) (assignedIds s ops) := by
  induction ops with
  | nil =>
    intro s
    simp [assignedIds]
  | cons op rest ih =>
    intro s
    by_cases hs : op.isShow = true
    · rw [assignedIds, if_pos hs]
      refine List.chain'_cons'.mpr ⟨?_, ih (applySinkOp s op)⟩
      intro b hb
      have hmem := List.mem_of_mem_head? hb
      have h3 := assignedIds_lb rest (applySinkOp s op) b hmem
      have h4 := applySinkOp_show_nextId s op hs
      omega
    · rw [assignedIds, if_neg hs]
      exact ih (applySinkOp s op)

theorem assignedIds_shows_range (ops : List SinkOp) :
    ∀ s : NotificationState, (∀ op ∈ ops, op.isShow = true) →
      assignedIds s ops = List.range' s.nextId ops.length := by
  induction ops with
  | nil =>
    intro s _
    rfl
  | cons op rest ih =>
    intro s hall
    have hs : op.isShow = true := hall op (List.mem_cons_self op rest)
    rw [assignedIds, if_pos hs]
    have htail := ih (applySinkOp s op)
      (fun o ho => hall o (List.mem_cons_of_mem op ho))
    rw [htail, applySinkOp_show_nextId s op hs]
    rfl

/-- C9: every notification-sink call (`showErrorFromAppError` and the other
show entry points) appends exactly one toast to the queue, carrying the
current counter value as id and incrementing the counter; the ids assigned
by a sequence of sink calls starting from the initial state are 1, 2, 3, …
— strictly increasing and starting at 1. -/
theorem c9_toast_ids_monotonic :
    (∀ (s : NotificationState) (op : SinkOp), op.isShow = true →
      ∃ t : ToastNotification,
        (applySinkOp s op).activeToasts = s.activeToasts ++ [t] ∧
        t.id = s.nextId ∧ (applySinkOp s op).nextId = s.nextId + 1) ∧
    (∀ ops : List SinkOp, (∀ op ∈ ops, op.isShow = true) →
      assignedIds initialNotificationState ops = List.range' 1 ops.length) := by
  constructor
  · intro s op h
    obtain ⟨t, ht1, ht2⟩ := applySinkOp_show_appends s op h
    exact ⟨t, ht1, ht2, applySinkOp_show_nextId s op h⟩
  · intro ops hall
    exact assignedIds_shows_range ops initialNotificationState hall

/-- Witness for C9: three successive sink calls from the initial state are
assigned ids 1, 2, 3. -/
theorem c9_toast_ids_monotonic_witness :
    assignedIds initialNotificationState
      [SinkOp.success "saved", SinkOp.info "hello",
       SinkOp.errFromApp (mkNetworkError "offline" none none)] = [1, 2, 3] := by
  have h := c9_toast_ids_monotonic.2
    [SinkOp.success "saved", SinkOp.info "hello",
     SinkOp.errFromApp (mkNetworkError "offline" none none)]
    (by
      intro op hop
      simp only [List.mem_cons, List.not_mem_nil, or_false] at hop
      rcases hop with rfl | rfl | rfl <;> rfl)
  exact h

/-- C10: dismissing a toast removes from the queue exactly the toasts whose
id equals the given identifier, keeps every other toast in its original
relative order, and leaves the id counter untouched; consequently the ids
assigned along any sequence of sink calls — dismissals included — form a
strictly increasing chain, so a dismissed id is never reused. -/
theorem c10_dismiss_frame (s : NotificationState) (toastId : ℕ) :
    ((dismissToast s toastId).nextId = s.nextId) ∧
    (∀ t : ToastNotification,
      t ∈ (dismissToast s toastId).activeToasts ↔
        t ∈ s.activeToasts ∧ t.id ≠ toastId) ∧
    ((dismissToast s toastId).activeToasts.Sublist s.activeToasts) ∧
    (∀ ops : List SinkOp,
      List.Chain' (· < ·) (assignedIds initialNotificationState ops)) := by
  refine ⟨rfl, ?_, ?_, fun ops => assignedIds_chain ops initialNotificationState⟩
  · intro t
    simp [dismissToast, List.mem_filter]
  · exact List.filter_sublist _

/-- Witness for C10: dismissing toast 1 after two sink calls keeps the
counter at 3 and keeps exactly toast 2. -/
theorem c10_dismiss_frame_witness :
    (dismissToast
        (runSinkOps initialNotificationState
          [SinkOp.success "a", SinkOp.info "b"]) 1).nextId =
      (runSinkOps initialNotificationState
        [SinkOp.success "a", SinkOp.info "b"]).nextId :=
  (c10_dismiss_frame
    (runSinkOps initialNotificationState
      [SinkOp.success "a", SinkOp.info "b"]) 1).1

end Soluce
